import Mathlib

/-
Shallow embedding of the YARA rule submission platform.

The repository has two services:
  * `src/api/main.py`   — the FastAPI submission orchestrator (sessions,
    rate limiting, validation, status classification);
  * `src/scanner/app.py` — the Flask scan service (per-directory scan
    execution and verdict aggregation).

Timestamps (`time.time()`) are modelled as rationals; Python's `int()`
truncation is `truncInt`.  The per-request clock is passed explicitly as
`now`.  The in-memory dict `session_data` is modelled as a function
`String → Option SessionRecord`.  External boundaries (the `yr` engine
subprocess plus `json.loads`, the HTTP client, UTF-8 decoding of the
uploaded bytes) are modelled as explicit outcome values fed to the
functions that consume them.
-/

namespace YaraLab

/-- `RATE_LIMIT_SECONDS = 60` (src/api/main.py line 13). -/
def RATE_LIMIT_SECONDS : ℚ := 60

/-- `SESSION_EXPIRY_SECONDS = 3600` (src/api/main.py line 14). -/
def SESSION_EXPIRY_SECONDS : ℚ := 3600

/-- `AVAILABLE_LABS = ["lab1", "lab2"]` (src/api/main.py line 12). -/
def AVAILABLE_LABS : List String := ["lab1", "lab2"]

/-- One value of the `session_data` dict:
`{"created_at": timestamp, "last_upload": timestamp}` (line 19).
A `last_upload` of `0` is the sentinel for "never uploaded". -/
structure SessionRecord where
  created_at : ℚ
  last_upload : ℚ
deriving DecidableEq, Repr

/-- The `session_data` dict (src/api/main.py line 20). -/
def Store : Type := String → Option SessionRecord

/-- `session_data[k] = v`. -/
def storeInsert (store : Store) (k : String) (v : SessionRecord) : Store :=
  fun s => if s = k then some v else store s

/-- `del session_data[k]`. -/
def storeErase (store : Store) (k : String) : Store :=
  fun s => if s = k then none else store s

/-- Python `int()` applied to a rational: truncation toward zero. -/
def truncInt (q : ℚ) : ℤ :=
  if 0 ≤ q then ⌊q⌋ else ⌈q⌉

/-- `is_session_expired` (src/api/main.py lines 39–47): a session id that is
not a key of `session_data` counts as expired; otherwise expired iff
`now - created_at >= SESSION_EXPIRY_SECONDS`. -/
def is_session_expired (store : Store) (now : ℚ) (session_id : String) : Bool :=
  match store session_id with
  | none => true
  | some r => decide (SESSION_EXPIRY_SECONDS ≤ now - r.created_at)

/-- `cleanup_expired_sessions` (src/api/main.py lines 50–61): delete every
record with `now - created_at >= SESSION_EXPIRY_SECONDS`.  (The Python
function also returns the count removed, which no caller uses.) -/
def cleanup_expired_sessions (store : Store) (now : ℚ) : Store :=
  fun s =>
    match store s with
    | none => none
    | some r => if SESSION_EXPIRY_SECONDS ≤ now - r.created_at then none else some r

/-- `get_or_create_session` (src/api/main.py lines 64–96).

* `presented` is `request.cookies.get("session_id")`; Python's
  `if not session_id` is true for both `None` and the empty string.
* `doCleanup` is the outcome of `random.random() < 0.1`.
* `fresh` is the `str(uuid.uuid4())` that would be minted.

Returns the resolved session id and the updated store.  If the cookie is
absent/falsy or `is_session_expired` holds (which includes the id simply
missing from the store), any stale record is deleted and a fresh id is
minted with `last_upload = 0`; otherwise the presented id is returned,
with a defensive insert when it is missing from the store (a branch that
is unreachable, since a missing id already counts as expired).

`get_or_create_core` is the function body after the probabilistic
cleanup; `get_or_create_session` composes the two exactly as the Python
function does. -/
def get_or_create_core (st : Store) (now : ℚ) (presented : Option String)
    (fresh : String) : String × Store :=
  match presented with
  | none =>
      (fresh, storeInsert st fresh ⟨now, 0⟩)
  | some s =>
      if s = "" then
        (fresh, storeInsert st fresh ⟨now, 0⟩)
      else if is_session_expired st now s then
        (fresh, storeInsert (if (st s).isSome then storeErase st s else st)
          fresh ⟨now, 0⟩)
      else
        if (st s).isSome then (s, st)
        else (s, storeInsert st s ⟨now, 0⟩)

def get_or_create_session (store : Store) (now : ℚ) (presented : Option String)
    (doCleanup : Bool) (fresh : String) : String × Store :=
  get_or_create_core (if doCleanup then cleanup_expired_sessions store now else store)
    now presented fresh

/-- `session_data.get(session_id, {}).get("last_upload", 0)`
(src/api/main.py lines 102–103). -/
def lastUploadOf (store : Store) (session_id : String) : ℚ :=
  match store session_id with
  | some r => r.last_upload
  | none => 0

/-- `check_rate_limit` (src/api/main.py lines 99–109).  Allowed iff
`now - last_upload >= RATE_LIMIT_SECONDS`; otherwise returns
`int(RATE_LIMIT_SECONDS - (now - last_upload)) + 1` as the seconds
remaining.  Reads the store but never writes it, so it is embedded as a
pure function of the store. -/
def check_rate_limit (store : Store) (now : ℚ) (session_id : String) : Bool × ℤ :=
  let last_upload := lastUploadOf store session_id
  if RATE_LIMIT_SECONDS ≤ now - last_upload then
    (true, 0)
  else
    (false, truncInt (RATE_LIMIT_SECONDS - (now - last_upload)) + 1)

/-- `determine_scan_status` (src/api/main.py lines 112–128).  Arguments in
the order the Python function reads them from the result dict. -/
def determine_scan_status (benign_matched random_matched lab_matched lab_total : ℕ) :
    String :=
  if benign_matched > 0 then "False Positive Detected (benign)"
  else if random_matched > 0 then "False Positive Detected (random)"
  else if lab_matched = 0 then "None Detected"
  else if lab_matched < lab_total then "Partial Samples Detected"
  else "All Samples Detected"

/-! ### Rule syntax validation (src/api/main.py lines 23–36)

`validate_yara_rule` checks: the text is not blank, matches
`\brule\s+\w+`, and matches `\brule\s+\w+\s*\{[\s\S]*\}`.  The regexes
are transcribed as character-list scanners: a word character is `\w`,
whitespace is `\s`, and a match is sought at every position whose
preceding character is not a word character (the `\b` boundary before
the word `rule`). -/

/-- `\w`: alphanumeric or underscore. -/
def isWordChar (c : Char) : Bool := c.isAlphanum || c = '_'

/-- `\s`: whitespace. -/
def isSpaceChar (c : Char) : Bool := c.isWhitespace

/-- Python `str.strip()` on a character list: drop whitespace from both
ends. -/
def stripChars (cs : List Char) : List Char :=
  ((cs.dropWhile isSpaceChar).reverse.dropWhile isSpaceChar).reverse

/-- Does `rule\s+\w+` match starting exactly at this position? -/
def ruleHeadAt (cs : List Char) : Bool :=
  match cs with
  | 'r' :: 'u' :: 'l' :: 'e' :: rest =>
      let sp := rest.takeWhile isSpaceChar
      let r1 := rest.dropWhile isSpaceChar
      (!sp.isEmpty) &&
        (match r1 with
         | c :: _ => isWordChar c
         | [] => false)
  | _ => false

/-- Does `rule\s+\w+\s*\{[\s\S]*\}` match starting exactly at this
position?  (`\w+` and `\s*` are maximal runs; `[\s\S]*\}` holds iff a
closing brace occurs anywhere after the opening one.) -/
def ruleBlockAt (cs : List Char) : Bool :=
  match cs with
  | 'r' :: 'u' :: 'l' :: 'e' :: rest =>
      let sp := rest.takeWhile isSpaceChar
      let r1 := rest.dropWhile isSpaceChar
      let w := r1.takeWhile isWordChar
      let r2 := (r1.dropWhile isWordChar).dropWhile isSpaceChar
      (!sp.isEmpty) && (!w.isEmpty) &&
        (match r2 with
         | c :: body => c = '\x7b' && body.contains '\x7d'
         | [] => false)
  | _ => false

/-- `re.search` with a `\b`-anchored pattern: try the position-local
matcher `p` at every index whose preceding character is not a word
character.  `prevWord` records whether the previous character was a word
character (false at the start of the string). -/
def searchBoundary (p : List Char → Bool) : Bool → List Char → Bool
  | prevWord, [] => !prevWord && p []
  | prevWord, c :: rest =>
      (!prevWord && p (c :: rest)) || searchBoundary p (isWordChar c) rest

/-- `validate_yara_rule` (src/api/main.py lines 23–36): reject blank
content, then require both regex searches to succeed. -/
def validate_yara_rule (content : String) : Bool :=
  if (stripChars content.data).isEmpty then false
  else
    searchBoundary ruleHeadAt false content.data &&
    searchBoundary ruleBlockAt false content.data

/-! ### Scan service (src/scanner/app.py) -/

/-- One entry of `directory.glob("*")`; `isFile` is `f.is_file()`. -/
structure DirEntry where
  name : String
  isFile : Bool
deriving DecidableEq, Repr

/-- The per-directory result dict built by `scan_directory`
(`total_files`, `matched_files`; the `matches` key is commented out on
every non-trivial path). -/
structure ScanResult where
  total_files : ℕ
  matched_files : ℕ
deriving DecidableEq, Repr

/-- Outcome of the external `yr scan -o json` subprocess together with
`json.loads` of its stdout, which the repository treats as a black box:

* `timeout`   — `subprocess.TimeoutExpired` after 30 time units;
* `fault`     — any other exception during invocation or result handling;
* `blank`     — the process ran and `result.stdout.strip()` is empty;
* `malformed` — stdout is nonempty but `json.loads` (or the subsequent
  key accesses) raises, which `except Exception` catches;
* `report paths` — stdout parsed, and the JSON `matches` list carries
  these `"file"` path strings. -/
inductive EngineResult where
  | timeout
  | fault
  | blank
  | malformed
  | report (paths : List String)
deriving DecidableEq, Repr

/-- Accumulate the characters since the last `/` separator. -/
def lastComponent : List Char → List Char → List Char
  | acc, [] => acc
  | acc, c :: rest =>
      if c = '/' then lastComponent [] rest else lastComponent (acc ++ [c]) rest

/-- `Path(p).name`: the final `/`-separated path component (the behavior
of `pathlib` on ordinary paths; no claim depends on its trailing-slash
edge cases). -/
def pathName (p : String) : String :=
  String.mk (lastComponent [] p.data)

/-- `scan_directory` (src/scanner/app.py lines 14–77).  `entries` is the
directory listing taken before scanning; `engine` is the engine outcome.
An empty (after the `is_file` filter) listing returns the zero result
without consulting `engine`; a parsed report is deduplicated by file
name; every failure path degrades to `matched_files = 0`. -/
def scan_directory (entries : List DirEntry) (engine : EngineResult) : ScanResult :=
  let sample_files := entries.filter (fun f => f.isFile)
  if sample_files.isEmpty then
    ⟨0, 0⟩
  else
    match engine with
    | .report paths => ⟨sample_files.length, ((paths.map pathName).dedup).length⟩
    | .blank => ⟨sample_files.length, 0⟩
    | .timeout => ⟨sample_files.length, 0⟩
    | .fault => ⟨sample_files.length, 0⟩
    | .malformed => ⟨sample_files.length, 0⟩

/-- The dict returned by `scan_with_yara` on success
(src/scanner/app.py lines 120–125). -/
structure ScanVerdict where
  lab : ScanResult
  benign : ScanResult
  random : ScanResult
  passed : Bool
deriving DecidableEq, Repr

/-- `scan_with_yara` (src/scanner/app.py lines 80–130).  `labDirExists`
is `lab_dir.is_dir()`; each corpus contributes its directory listing and
its engine outcome.  Returns `none` for the `{"error": ...}` dict when
the lab directory is missing. -/
def scan_with_yara (labDirExists : Bool)
    (labEntries benignEntries randomEntries : List DirEntry)
    (labEngine benignEngine randomEngine : EngineResult) : Option ScanVerdict :=
  if !labDirExists then none
  else
    let lab_results := scan_directory labEntries labEngine
    let benign_results := scan_directory benignEntries benignEngine
    let random_results := scan_directory randomEntries randomEngine
    let lab_passed := lab_results.matched_files == lab_results.total_files
    let benign_passed := benign_results.matched_files == 0
    let random_passed := random_results.matched_files == 0
    some ⟨lab_results, benign_results, random_results,
          lab_passed && benign_passed && random_passed⟩

/-! ### Submission orchestrator (src/api/main.py lines 144–231) -/

/-- The fault taxonomy of `submit_rule`, one constructor per
`HTTPException` it raises. -/
inductive Fault where
  | RateLimited (seconds_remaining : ℤ)
  | LabNotFound
  | InvalidEncoding
  | InvalidRuleSyntax
  | ScannerUnavailable
  | ScannerTimeout
  | ScannerError
deriving DecidableEq, Repr

/-- The httpx exception raised by the scanner call, when one is. -/
inductive ScannerExn where
  | requestError
  | connectError
  | timeoutException
  | httpStatusError
deriving DecidableEq, Repr

/-- The fault produced by the `except` chain at src/api/main.py lines
198–208.  `ConnectError` and `TimeoutException` are subclasses of
`RequestError`, so Python's first matching clause maps them to the 503
`ScannerUnavailable` fault; only `HTTPStatusError` (not a
`RequestError`) reaches its own clause. -/
def scannerFault : ScannerExn → Fault
  | .requestError => .ScannerUnavailable
  | .connectError => .ScannerUnavailable
  | .timeoutException => .ScannerUnavailable
  | .httpStatusError => .ScannerError

/-- `determine_scan_status` applied to a scanner result dict, reading the
keys exactly as src/api/main.py lines 114–117 do. -/
def scanStatusOf (v : ScanVerdict) : String :=
  determine_scan_status v.benign.matched_files v.random.matched_files
    v.lab.matched_files v.lab.total_files

/-- `submit_rule` (src/api/main.py lines 144–231).

* `decoded` is the outcome of `content.decode("utf-8")`: `none` for a
  `UnicodeDecodeError`.
* `scanner` models the HTTP POST to the scan service including
  `raise_for_status()` and `.json()`: either a raised httpx exception or
  the parsed result dict.

Steps, each returning on the first fault: resolve session; rate limit;
lab-id membership; decode; syntax validation; scanner call; then — only
on success — record `last_upload = now` (creating the record if it is
somehow missing) and classify the scan status. -/
def submit_rule (store : Store) (now : ℚ) (presented : Option String)
    (doCleanup : Bool) (fresh : String) (lab_id : String)
    (decoded : Option String)
    (scanner : String → String → Except ScannerExn ScanVerdict) :
    Except Fault String × Store :=
  let res := get_or_create_session store now presented doCleanup fresh
  let session_id := res.1
  let st1 := res.2
  let rl := check_rate_limit st1 now session_id
  if !rl.1 then
    (.error (.RateLimited rl.2), st1)
  else if !(AVAILABLE_LABS.contains lab_id) then
    (.error .LabNotFound, st1)
  else
    match decoded with
    | none => (.error .InvalidEncoding, st1)
    | some rule_text =>
        if !validate_yara_rule rule_text then
          (.error .InvalidRuleSyntax, st1)
        else
          match scanner rule_text lab_id with
          | .error e => (.error (scannerFault e), st1)
          | .ok result =>
              let st2 :=
                match st1 session_id with
                | some r => storeInsert st1 session_id ⟨r.created_at, now⟩
                | none => storeInsert st1 session_id ⟨now, now⟩
              (.ok (scanStatusOf result), st2)

/-! ### Shared lemmas about the session store operations -/

/-- A record surviving `cleanup_expired_sessions` was in the store,
unchanged. -/
lemma cleanup_expired_sessions_sub (store : Store) (now : ℚ) (t : String)
    (r : SessionRecord) (h : cleanup_expired_sessions store now t = some r) :
    store t = some r := by
  unfold cleanup_expired_sessions at h
  cases hs : store t with
  | none =>
      simp only [hs] at h
      exact Option.noConfusion h
  | some r' =>
      simp only [hs] at h
      by_cases he : SESSION_EXPIRY_SECONDS ≤ now - r'.created_at
      · simp only [if_pos he] at h
        exact Option.noConfusion h
      · simp only [if_neg he] at h
        rw [h]

/-- Reading an updated store. -/
lemma storeInsert_apply (store : Store) (k : String) (v : SessionRecord)
    (t : String) : storeInsert store k v t = if t = k then some v else store t := rfl

/-- Every record present after `get_or_create_core` is either the freshly
created `{created_at := now, last_upload := 0}` record or sits unchanged
in the input store; moreover either the resolved session id carries that
fresh record, or the store is returned untouched with the resolved id
present in it. -/
lemma get_or_create_core_cases (st : Store) (now : ℚ)
    (presented : Option String) (fresh sid : String) (st1 : Store)
    (hres : get_or_create_core st now presented fresh = (sid, st1)) :
    (∀ t r, st1 t = some r → r = ⟨now, 0⟩ ∨ st t = some r) ∧
    (st1 sid = some ⟨now, 0⟩ ∨ (st1 = st ∧ (st sid).isSome = true)) := by
  have hmint : ∀ st' : Store,
      (∀ t r, st' t = some r → st t = some r) →
      ((fresh, storeInsert st' fresh ⟨now, 0⟩) : String × Store) = (sid, st1) →
      (∀ t r, st1 t = some r → r = ⟨now, 0⟩ ∨ st t = some r) ∧
      (st1 sid = some ⟨now, 0⟩ ∨ (st1 = st ∧ (st sid).isSome = true)) := by
    intro st' hsub' heq
    injection heq with h1 h2
    subst h1
    subst h2
    constructor
    · intro t r h
      rw [storeInsert_apply] at h
      by_cases ht : t = fresh
      · rw [if_pos ht] at h
        exact Or.inl (Option.some.inj h).symm
      · rw [if_neg ht] at h
        exact Or.inr (hsub' t r h)
    · left
      rw [storeInsert_apply, if_pos rfl]
  cases presented with
  | none =>
      simp only [get_or_create_core] at hres
      exact hmint st (fun _ _ h => h) hres
  | some s =>
      simp only [get_or_create_core] at hres
      by_cases hs0 : s = ""
      · rw [if_pos hs0] at hres
        exact hmint st (fun _ _ h => h) hres
      · rw [if_neg hs0] at hres
        by_cases hexp : is_session_expired st now s = true
        · rw [if_pos hexp] at hres
          refine hmint _ ?_ hres
          intro t r h
          by_cases hsome : (st s).isSome = true
          · rw [if_pos hsome] at h
            unfold storeErase at h
            by_cases ht : t = s
            · rw [if_pos ht] at h
              exact Option.noConfusion h
            · rw [if_neg ht] at h
              exact h
          · rw [if_neg hsome] at h
            exact h
        · rw [if_neg hexp] at hres
          by_cases hsome : (st s).isSome = true
          · rw [if_pos hsome] at hres
            injection hres with h1 h2
            subst h1
            subst h2
            exact ⟨fun t r h => Or.inr h, Or.inr ⟨rfl, hsome⟩⟩
          · rw [if_neg hsome] at hres
            injection hres with h1 h2
            subst h1
            subst h2
            constructor
            · intro t r h
              rw [storeInsert_apply] at h
              by_cases ht : t = s
              · rw [if_pos ht] at h
                exact Or.inl (Option.some.inj h).symm
              · rw [if_neg ht] at h
                exact Or.inr h
            · left
              rw [storeInsert_apply, if_pos rfl]

/-- Lift of `get_or_create_core_cases` through the probabilistic cleanup:
every record present after `get_or_create_session` is the fresh record
or an unchanged record of the input store, and the resolved id either
carries the fresh record or carries a record identical to its record in
the input store while no surviving record was changed. -/
lemma get_or_create_session_cases (store : Store) (now : ℚ)
    (presented : Option String) (doCleanup : Bool) (fresh sid : String)
    (st1 : Store)
    (hres : get_or_create_session store now presented doCleanup fresh = (sid, st1)) :
    (∀ t r, st1 t = some r → r = ⟨now, 0⟩ ∨ store t = some r) ∧
    (st1 sid = some ⟨now, 0⟩ ∨
      (∃ r, st1 sid = some r ∧ store sid = some r ∧
        ∀ t r', st1 t = some r' → store t = some r')) := by
  unfold get_or_create_session at hres
  have hsub : ∀ t r,
      (if doCleanup then cleanup_expired_sessions store now else store) t = some r →
      store t = some r := by
    intro t r h
    cases doCleanup with
    | false => exact h
    | true => exact cleanup_expired_sessions_sub store now t r h
  obtain ⟨h1, h2⟩ := get_or_create_core_cases _ now presented fresh sid st1 hres
  refine ⟨fun t r h => (h1 t r h).imp id (hsub t r), ?_⟩
  rcases h2 with h2 | ⟨h2, h3⟩
  · exact Or.inl h2
  · obtain ⟨r, hr⟩ := Option.isSome_iff_exists.mp h3
    exact Or.inr ⟨r, h2 ▸ hr, hsub sid r hr, fun t r' h => hsub t r' (h2 ▸ h)⟩

/-! ### C3 -/

/-- C3: `determine_scan_status` classifies by priority order with the
first match winning: a benign match gives the benign false-positive
label; otherwise a random match gives the random false-positive label;
otherwise zero lab matches give the zero-detection label; otherwise
fewer lab matches than lab files give the partial label; otherwise the
full-detection label.  The five guard conditions partition all inputs,
so exactly one label is assigned. -/
theorem C3_determine_scan_status_priority
    (benign_matched random_matched lab_matched lab_total : ℕ) :
    (0 < benign_matched →
      determine_scan_status benign_matched random_matched lab_matched lab_total
        = "False Positive Detected (benign)") ∧
    (benign_matched = 0 → 0 < random_matched →
      determine_scan_status benign_matched random_matched lab_matched lab_total
        = "False Positive Detected (random)") ∧
    (benign_matched = 0 → random_matched = 0 → lab_matched = 0 →
      determine_scan_status benign_matched random_matched lab_matched lab_total
        = "None Detected") ∧
    (benign_matched = 0 → random_matched = 0 → 0 < lab_matched →
      lab_matched < lab_total →
      determine_scan_status benign_matched random_matched lab_matched lab_total
        = "Partial Samples Detected") ∧
    (benign_matched = 0 → random_matched = 0 → 0 < lab_matched →
      lab_total ≤ lab_matched →
      determine_scan_status benign_matched random_matched lab_matched lab_total
        = "All Samples Detected") := by
  unfold determine_scan_status
  refine ⟨fun h1 => ?_, fun h1 h2 => ?_, fun h1 h2 h3 => ?_,
    fun h1 h2 h3 h4 => ?_, fun h1 h2 h3 h4 => ?_⟩
  · rw [if_pos h1]
  · rw [if_neg (by omega), if_pos h2]
  · rw [if_neg (by omega), if_neg (by omega), if_pos h3]
  · rw [if_neg (by omega), if_neg (by omega), if_neg (by omega), if_pos h4]
  · rw [if_neg (by omega), if_neg (by omega), if_neg (by omega),
      if_neg (by omega)]

/-- C3 witness: all five branches exercised on concrete triples. -/
theorem C3_witness :
    determine_scan_status 1 1 3 5 = "False Positive Detected (benign)" ∧
    determine_scan_status 0 2 3 5 = "False Positive Detected (random)" ∧
    determine_scan_status 0 0 0 5 = "None Detected" ∧
    determine_scan_status 0 0 3 5 = "Partial Samples Detected" ∧
    determine_scan_status 0 0 5 5 = "All Samples Detected" :=
  ⟨(C3_determine_scan_status_priority 1 1 3 5).1 (by decide),
   (C3_determine_scan_status_priority 0 2 3 5).2.1 rfl (by decide),
   (C3_determine_scan_status_priority 0 0 0 5).2.2.1 rfl rfl rfl,
   (C3_determine_scan_status_priority 0 0 3 5).2.2.2.1 rfl rfl (by decide) (by decide),
   (C3_determine_scan_status_priority 0 0 5 5).2.2.2.2 rfl rfl (by decide) (by decide)⟩

/-! ### C4 -/

/-- C4: for a directory with at least one regular file, a timed-out
engine run, an unparseable report, or any internal fault all produce the
result `{total_files := file count taken before scanning,
matched_files := 0}`; `scan_directory` is a total function, so no fault
propagates to the caller. -/
theorem C4_scan_directory_fault_swallowed (entries : List DirEntry)
    (engine : EngineResult)
    (hne : entries.filter (fun f => f.isFile) ≠ [])
    (he : engine = .timeout ∨ engine = .fault ∨ engine = .malformed) :
    scan_directory entries engine
      = ⟨(entries.filter (fun f => f.isFile)).length, 0⟩ := by
  rcases he with rfl | rfl | rfl <;>
    simp [scan_directory, List.isEmpty_iff, hne]

/-- C4 witness: one regular file, each of the three failure modes. -/
theorem C4_witness :
    scan_directory [⟨"a", true⟩] .timeout = ⟨1, 0⟩ ∧
    scan_directory [⟨"a", true⟩] .fault = ⟨1, 0⟩ ∧
    scan_directory [⟨"a", true⟩] .malformed = ⟨1, 0⟩ :=
  ⟨C4_scan_directory_fault_swallowed _ _ (by decide) (Or.inl rfl),
   C4_scan_directory_fault_swallowed _ _ (by decide) (Or.inr (Or.inl rfl)),
   C4_scan_directory_fault_swallowed _ _ (by decide) (Or.inr (Or.inr rfl))⟩

/-- Shared: a directory with no regular files yields the trivial zero
result, whatever the engine outcome. -/
lemma scan_directory_no_files (entries : List DirEntry)
    (h : entries.filter (fun f => f.isFile) = []) (engine : EngineResult) :
    scan_directory entries engine = ⟨0, 0⟩ := by
  simp [scan_directory, h]

/-! ### C8 -/

/-- C8: a directory with no regular files yields `total_files = 0,
matched_files = 0`, and the result is independent of the engine outcome
— the engine argument is never consulted, matching the early return
before the subprocess call. -/
theorem C8_scan_directory_empty (entries : List DirEntry)
    (h : entries.filter (fun f => f.isFile) = []) :
    (∀ engine, scan_directory entries engine = ⟨0, 0⟩) ∧
    (∀ e₁ e₂, scan_directory entries e₁ = scan_directory entries e₂) :=
  ⟨scan_directory_no_files entries h,
   fun e₁ e₂ => (scan_directory_no_files entries h e₁).trans
     (scan_directory_no_files entries h e₂).symm⟩

/-- C8 witness: a directory whose only entry is a subdirectory. -/
theorem C8_witness :
    scan_directory [⟨"sub", false⟩] .timeout = ⟨0, 0⟩ ∧
    scan_directory [⟨"sub", false⟩] (.report ["x"])
      = scan_directory [⟨"sub", false⟩] .fault :=
  ⟨(C8_scan_directory_empty _ (by decide)).1 .timeout,
   (C8_scan_directory_empty _ (by decide)).2 (.report ["x"]) .fault⟩

/-! ### C6 -/

/-- C6: whenever `scan_with_yara` returns a verdict, `passed` is true iff
the lab corpus matched all its files, the benign corpus matched none and
the random corpus matched none. -/
theorem C6_passed_iff_all_three (labDirExists : Bool)
    (labEntries benignEntries randomEntries : List DirEntry)
    (labEngine benignEngine randomEngine : EngineResult) (v : ScanVerdict)
    (hv : scan_with_yara labDirExists labEntries benignEntries randomEntries
            labEngine benignEngine randomEngine = some v) :
    (v.passed = true ↔
      v.lab.matched_files = v.lab.total_files ∧
      v.benign.matched_files = 0 ∧ v.random.matched_files = 0) := by
  cases labDirExists with
  | false => simp [scan_with_yara] at hv
  | true =>
      simp only [scan_with_yara, Bool.not_true, Bool.false_eq_true, if_false,
        Option.some.injEq] at hv
      subst hv
      simp [Bool.and_eq_true, beq_iff_eq, and_assoc]

/-- C6 witness: a one-file lab corpus fully matched, empty benign and
random corpora. -/
theorem C6_witness :
    ((⟨⟨1, 1⟩, ⟨0, 0⟩, ⟨0, 0⟩, true⟩ : ScanVerdict).passed = true ↔
      (⟨⟨1, 1⟩, ⟨0, 0⟩, ⟨0, 0⟩, true⟩ : ScanVerdict).lab.matched_files
          = (⟨⟨1, 1⟩, ⟨0, 0⟩, ⟨0, 0⟩, true⟩ : ScanVerdict).lab.total_files ∧
      (⟨⟨1, 1⟩, ⟨0, 0⟩, ⟨0, 0⟩, true⟩ : ScanVerdict).benign.matched_files = 0 ∧
      (⟨⟨1, 1⟩, ⟨0, 0⟩, ⟨0, 0⟩, true⟩ : ScanVerdict).random.matched_files = 0) :=
  C6_passed_iff_all_three true [⟨"a", true⟩] [] [] (.report ["a"]) .blank .blank
    ⟨⟨1, 1⟩, ⟨0, 0⟩, ⟨0, 0⟩, true⟩ rfl

/-! ### C10 -/

/-- C10: an existing but empty lab corpus together with zero benign and
zero random matches yields `passed = true` (vacuously, `0 = 0`) while
the status classification is the zero-detection label "None Detected",
not "All Samples Detected": `passed` does not imply the full-detection
status. -/
theorem C10_empty_lab_passed_but_none_detected
    (labEntries benignEntries randomEntries : List DirEntry)
    (labEngine benignEngine randomEngine : EngineResult)
    (hlab : labEntries.filter (fun f => f.isFile) = [])
    (hb : (scan_directory benignEntries benignEngine).matched_files = 0)
    (hr : (scan_directory randomEntries randomEngine).matched_files = 0)
    (v : ScanVerdict)
    (hv : scan_with_yara true labEntries benignEntries randomEntries
            labEngine benignEngine randomEngine = some v) :
    v.passed = true ∧ scanStatusOf v = "None Detected" ∧
    scanStatusOf v ≠ "All Samples Detected" := by
  simp only [scan_with_yara, Bool.not_true, Bool.false_eq_true, if_false,
    Option.some.injEq] at hv
  rw [scan_directory_no_files labEntries hlab labEngine] at hv
  subst hv
  refine ⟨?_, ?_, ?_⟩
  · simp [hb, hr]
  · simp [scanStatusOf, determine_scan_status, hb, hr]
  · simp [scanStatusOf, determine_scan_status, hb, hr]

/-- C10 witness: all three corpora empty. -/
theorem C10_witness :
    (⟨⟨0, 0⟩, ⟨0, 0⟩, ⟨0, 0⟩, true⟩ : ScanVerdict).passed = true ∧
    scanStatusOf ⟨⟨0, 0⟩, ⟨0, 0⟩, ⟨0, 0⟩, true⟩ = "None Detected" ∧
    scanStatusOf ⟨⟨0, 0⟩, ⟨0, 0⟩, ⟨0, 0⟩, true⟩ ≠ "All Samples Detected" :=
  C10_empty_lab_passed_but_none_detected [] [] [] .blank .blank .blank
    rfl rfl rfl ⟨⟨0, 0⟩, ⟨0, 0⟩, ⟨0, 0⟩, true⟩ rfl

/-! ### C1 -/

/-- A session whose last upload was at time 100, probed at time 100
(elapsed time exactly 0). -/
def C1cexStore : Store := fun s => if s = "a" then some ⟨0, 100⟩ else none

/-- C1 counterexample: with elapsed time exactly 0 (two `time.time()`
readings in the same clock tick), `check_rate_limit` is not allowed but
returns `seconds_remaining = int(60 - 0) + 1 = 61`, which is neither the
ceiling of the remaining cooldown (`⌈60⌉ = 60`) nor within 1..60. -/
theorem C1_counterexample :
    (check_rate_limit C1cexStore 100 "a").1 = false ∧
    (check_rate_limit C1cexStore 100 "a").2 = 61 ∧
    ¬ (check_rate_limit C1cexStore 100 "a").2 ≤ 60 ∧
    (check_rate_limit C1cexStore 100 "a").2
      ≠ ⌈RATE_LIMIT_SECONDS - ((100 : ℚ) - lastUploadOf C1cexStore "a")⌉ := by
  have hl : lastUploadOf C1cexStore "a" = 100 := rfl
  have hc : check_rate_limit C1cexStore 100 "a" = (false, 61) := by
    simp [check_rate_limit, hl, RATE_LIMIT_SECONDS, truncInt]
  refine ⟨by rw [hc], by rw [hc], by rw [hc]; decide, ?_⟩
  rw [hc, hl]
  norm_num [RATE_LIMIT_SECONDS]

/-- C1 (amended): when the elapsed time since the last upload is
nonnegative and strictly below the 60-unit window, `check_rate_limit`
refuses and returns `seconds_remaining = ⌊60 - elapsed⌋ + 1`, which lies
in 1..61 and equals the ceiling of the remaining cooldown exactly when
the elapsed time is not a whole number of time units; when the elapsed
time is at least 60 it allows with `seconds_remaining = 0`; and a
session that never uploaded (`last_upload = 0` sentinel) is allowed at
any realistic clock (`now ≥ 60`). -/
theorem C1_check_rate_limit_floor (store : Store) (now : ℚ) (sid : String)
    (hnn : 0 ≤ now - lastUploadOf store sid) :
    (now - lastUploadOf store sid < RATE_LIMIT_SECONDS →
      (check_rate_limit store now sid).1 = false ∧
      (check_rate_limit store now sid).2
        = ⌊RATE_LIMIT_SECONDS - (now - lastUploadOf store sid)⌋ + 1 ∧
      1 ≤ (check_rate_limit store now sid).2 ∧
      (check_rate_limit store now sid).2 ≤ 61 ∧
      ((¬ ∃ k : ℤ, now - lastUploadOf store sid = (k : ℚ)) →
        (check_rate_limit store now sid).2
          = ⌈RATE_LIMIT_SECONDS - (now - lastUploadOf store sid)⌉)) ∧
    (RATE_LIMIT_SECONDS ≤ now - lastUploadOf store sid →
      (check_rate_limit store now sid).1 = true ∧
      (check_rate_limit store now sid).2 = 0) ∧
    (lastUploadOf store sid = 0 → RATE_LIMIT_SECONDS ≤ now →
      (check_rate_limit store now sid).1 = true) := by
  have hRL : RATE_LIMIT_SECONDS = (60 : ℚ) := rfl
  refine ⟨fun hlt => ?_, fun hge => ?_, fun h0 h60 => ?_⟩
  · have hcond : ¬ RATE_LIMIT_SECONDS ≤ now - lastUploadOf store sid :=
      not_le.mpr hlt
    have hpos : 0 < RATE_LIMIT_SECONDS - (now - lastUploadOf store sid) := by
      linarith
    have hc : check_rate_limit store now sid
        = (false, truncInt (RATE_LIMIT_SECONDS - (now - lastUploadOf store sid)) + 1) := by
      simp only [check_rate_limit, if_neg hcond]
    have htr : truncInt (RATE_LIMIT_SECONDS - (now - lastUploadOf store sid))
        = ⌊RATE_LIMIT_SECONDS - (now - lastUploadOf store sid)⌋ := by
      unfold truncInt
      rw [if_pos hpos.le]
    have hfl0 : 0 ≤ ⌊RATE_LIMIT_SECONDS - (now - lastUploadOf store sid)⌋ :=
      Int.floor_nonneg.mpr hpos.le
    have hfl60 : ⌊RATE_LIMIT_SECONDS - (now - lastUploadOf store sid)⌋ ≤ 60 := by
      rw [Int.floor_le_iff]
      rw [hRL] at *
      push_cast
      linarith
    refine ⟨by rw [hc], by rw [hc, htr], by rw [hc, htr]; omega,
      by rw [hc, htr]; omega, fun hni => ?_⟩
    have hqni : ¬ ∃ k : ℤ,
        RATE_LIMIT_SECONDS - (now - lastUploadOf store sid) = (k : ℚ) := by
      rintro ⟨k, hk⟩
      refine hni ⟨60 - k, ?_⟩
      rw [hRL] at hk
      push_cast
      linarith
    have hlow : (⌊RATE_LIMIT_SECONDS - (now - lastUploadOf store sid)⌋ : ℚ)
        < RATE_LIMIT_SECONDS - (now - lastUploadOf store sid) := by
      refine lt_of_le_of_ne (Int.floor_le _) fun heq => ?_
      exact hqni ⟨⌊RATE_LIMIT_SECONDS - (now - lastUploadOf store sid)⌋, heq.symm⟩
    have hceil : ⌈RATE_LIMIT_SECONDS - (now - lastUploadOf store sid)⌉
        = ⌊RATE_LIMIT_SECONDS - (now - lastUploadOf store sid)⌋ + 1 := by
      refine le_antisymm (Int.ceil_le_floor_add_one _) ?_
      have : ⌊RATE_LIMIT_SECONDS - (now - lastUploadOf store sid)⌋
          < ⌈RATE_LIMIT_SECONDS - (now - lastUploadOf store sid)⌉ :=
        Int.lt_ceil.mpr hlow
      omega
    rw [hc, htr, hceil]
  · have hc : check_rate_limit store now sid = (true, 0) := by
      simp only [check_rate_limit, if_pos hge]
    rw [hc]
    exact ⟨rfl, rfl⟩
  · have hge : RATE_LIMIT_SECONDS ≤ now - lastUploadOf store sid := by
      rw [h0, sub_zero]
      exact h60
    have hc : check_rate_limit store now sid = (true, 0) := by
      simp only [check_rate_limit, if_pos hge]
    rw [hc]

/-- A session whose last upload was at time 70, probed at time 100.5
(elapsed 30.5, remaining 29.5, ceiling 30). -/
def C1wStore : Store := fun s => if s = "a" then some ⟨0, 70⟩ else none

/-- C1 witness: at elapsed time 30.5 the theorem gives refusal with
`seconds_remaining = ⌊29.5⌋ + 1 = 30`, the ceiling of the remaining
cooldown. -/
theorem C1_witness :
    (check_rate_limit C1wStore (201 / 2) "a").1 = false ∧
    (check_rate_limit C1wStore (201 / 2) "a").2 = 30 := by
  have hl : lastUploadOf C1wStore "a" = 70 := rfl
  have h := C1_check_rate_limit_floor C1wStore (201 / 2) "a"
    (by rw [hl]; norm_num)
  obtain ⟨h1, -, -⟩ := h
  obtain ⟨ha, hb, -, -, -⟩ := h1 (by rw [hl]; norm_num [RATE_LIMIT_SECONDS])
  refine ⟨ha, ?_⟩
  rw [hb, hl]
  have : ⌊RATE_LIMIT_SECONDS - ((201 / 2 : ℚ) - 70)⌋ = 29 := by
    rw [Int.floor_eq_iff]
    norm_num [RATE_LIMIT_SECONDS]
  omega

/-! ### C2 -/

/-- C2 counterexample: a presented session id `"s"` with no record in the
store is treated as expired, so resolution mints the fresh id `"f"`
instead of returning `"s"`, and creates no record for `"s"`. -/
theorem C2_counterexample :
    (get_or_create_session (fun _ => none) 0 (some "s") false "f").1 ≠ "s" ∧
    (get_or_create_session (fun _ => none) 0 (some "s") false "f").2 "s" = none := by
  constructor
  · show ("f" : String) ≠ "s"
    decide
  · rfl

/-- C2 (amended): a presented nonempty session id that has a record in
the store and is not expired (age strictly below 3600) is returned
unchanged with its record untouched; but a presented id with no record
in the store counts as expired — a fresh id is minted with a new record,
and no record is created on the fly for the presented id (the
self-healing branch is unreachable). -/
theorem C2_get_or_create_session_presented (store : Store) (now : ℚ)
    (s fresh : String) (doCleanup : Bool) (hne : s ≠ "") (hfs : fresh ≠ s) :
    (∀ r, store s = some r → now - r.created_at < SESSION_EXPIRY_SECONDS →
      (get_or_create_session store now (some s) doCleanup fresh).1 = s ∧
      (get_or_create_session store now (some s) doCleanup fresh).2 s = some r) ∧
    (store s = none →
      (get_or_create_session store now (some s) doCleanup fresh).1 = fresh ∧
      (get_or_create_session store now (some s) doCleanup fresh).2 s = none ∧
      (get_or_create_session store now (some s) doCleanup fresh).2 fresh
        = some ⟨now, 0⟩) := by
  constructor
  · intro r hsr hlt
    have hst : (if doCleanup then cleanup_expired_sessions store now else store) s
        = some r := by
      cases doCleanup with
      | false => exact hsr
      | true =>
          simp only [if_true, cleanup_expired_sessions, hsr,
            if_neg (not_le.mpr hlt)]
    have hexp : is_session_expired
        (if doCleanup then cleanup_expired_sessions store now else store) now s
        = false := by
      simp only [is_session_expired, hst]
      exact decide_eq_false (not_le.mpr hlt)
    have hc : get_or_create_session store now (some s) doCleanup fresh
        = (s, if doCleanup then cleanup_expired_sessions store now else store) := by
      simp only [get_or_create_session, get_or_create_core, if_neg hne]
      rw [if_neg (by rw [hexp]; exact Bool.false_ne_true)]
      rw [if_pos (by rw [hst]; rfl)]
    rw [hc]
    exact ⟨rfl, hst⟩
  · intro hnone
    have hst : (if doCleanup then cleanup_expired_sessions store now else store) s
        = none := by
      cases doCleanup with
      | false => exact hnone
      | true => simp only [if_true, cleanup_expired_sessions, hnone]
    have hexp : is_session_expired
        (if doCleanup then cleanup_expired_sessions store now else store) now s
        = true := by
      simp only [is_session_expired, hst]
    have hc : get_or_create_session store now (some s) doCleanup fresh
        = (fresh, storeInsert
            (if doCleanup then cleanup_expired_sessions store now else store)
            fresh ⟨now, 0⟩) := by
      simp only [get_or_create_session, get_or_create_core, if_neg hne]
      rw [if_pos hexp]
      rw [if_neg (by rw [hst]; exact Bool.false_ne_true)]
    refine ⟨by rw [hc], ?_, ?_⟩
    · simp only [hc, storeInsert_apply]
      rw [if_neg fun h => hfs h.symm]
      exact hst
    · simp [hc, storeInsert_apply]

/-- The store holding one unexpired session `"s"` created at time 10. -/
def C2wStore : Store := fun t => if t = "s" then some ⟨10, 0⟩ else none

/-- C2 witness: at time 100 the unexpired presented id `"s"` resolves to
itself with its record untouched. -/
theorem C2_witness :
    (get_or_create_session C2wStore 100 (some "s") false "f").1 = "s" ∧
    (get_or_create_session C2wStore 100 (some "s") false "f").2 "s"
      = some ⟨10, 0⟩ :=
  (C2_get_or_create_session_presented C2wStore 100 "s" "f" false
      (by decide) (by decide)).1 ⟨10, 0⟩ rfl
    (by norm_num [SESSION_EXPIRY_SECONDS])

/-! ### C7 -/

/-- C7 counterexample: the code never clamps `matched_files` against
`total_files`.  A directory enumerated with one regular file together
with an engine report naming two distinct files (possible because the
listing happens before the scan, and the engine is a black box) yields
`matched_files = 2 > 1 = total_files`, violating the invariant. -/
theorem C7_counterexample :
    (scan_directory [⟨"a", true⟩] (.report ["b", "c"])).total_files = 1 ∧
    (scan_directory [⟨"a", true⟩] (.report ["b", "c"])).matched_files = 2 ∧
    ¬ (scan_directory [⟨"a", true⟩] (.report ["b", "c"])).matched_files
        ≤ (scan_directory [⟨"a", true⟩] (.report ["b", "c"])).total_files := by
  refine ⟨rfl, rfl, ?_⟩
  decide

/-- C7 (amended): an empty directory yields `total_files = 0,
matched_files = 0`; on every non-report engine outcome
`matched_files ≤ total_files` holds (it is 0); and on a parsed report it
holds provided the number of distinct reported file names does not
exceed the enumerated file count — in particular whenever the engine
reports only files from the enumeration.  The code itself enforces no
such bound. -/
theorem C7_scan_result_bounds (entries : List DirEntry) (engine : EngineResult) :
    (entries.filter (fun f => f.isFile) = [] →
      scan_directory entries engine = ⟨0, 0⟩) ∧
    (∀ paths, engine = .report paths →
      (paths.map pathName).dedup.length ≤ (entries.filter (fun f => f.isFile)).length →
      (scan_directory entries engine).matched_files
        ≤ (scan_directory entries engine).total_files) ∧
    (engine = .timeout ∨ engine = .fault ∨ engine = .malformed ∨ engine = .blank →
      (scan_directory entries engine).matched_files
        ≤ (scan_directory entries engine).total_files) := by
  refine ⟨fun h => scan_directory_no_files entries h engine, ?_, ?_⟩
  · rintro paths rfl hle
    by_cases hf : entries.filter (fun f => f.isFile) = []
    · rw [scan_directory_no_files entries hf]
    · simp [scan_directory, List.isEmpty_iff, hf, hle]
  · rintro (rfl | rfl | rfl | rfl) <;>
      · by_cases hf : entries.filter (fun f => f.isFile) = []
        · rw [scan_directory_no_files entries hf]
        · simp [scan_directory, List.isEmpty_iff, hf]

/-! ### C5 -/

/-- C5: `submit_rule` applies its checks in order — session resolution,
rate limit, lab-id membership, decoding, syntax validation, scanner call
— returning on the first fault with the store as left by session
resolution, regardless of what any later check would say; on success the
resolved session's `last_upload` is set to `now` and no other session is
touched; and on every fault path the store is exactly the
post-resolution store, in which every record either has
`last_upload = 0` (a fresh record) or is an unchanged record of the
input store — so no fault path records an upload timestamp. -/
theorem C5_submit_rule_step_order (store : Store) (now : ℚ)
    (presented : Option String) (doCleanup : Bool) (fresh lab_id : String)
    (decoded : Option String)
    (scanner : String → String → Except ScannerExn ScanVerdict)
    (sid : String) (st1 : Store)
    (hres : get_or_create_session store now presented doCleanup fresh = (sid, st1))
    (out : Except Fault String × Store)
    (hout : submit_rule store now presented doCleanup fresh lab_id decoded scanner
      = out) :
    ((check_rate_limit st1 now sid).1 = false →
      out = (.error (.RateLimited (check_rate_limit st1 now sid).2), st1)) ∧
    ((check_rate_limit st1 now sid).1 = true →
      AVAILABLE_LABS.contains lab_id = false →
      out = (.error .LabNotFound, st1)) ∧
    ((check_rate_limit st1 now sid).1 = true →
      AVAILABLE_LABS.contains lab_id = true → decoded = none →
      out = (.error .InvalidEncoding, st1)) ∧
    (∀ rule_text, (check_rate_limit st1 now sid).1 = true →
      AVAILABLE_LABS.contains lab_id = true → decoded = some rule_text →
      validate_yara_rule rule_text = false →
      out = (.error .InvalidRuleSyntax, st1)) ∧
    (∀ rule_text e, (check_rate_limit st1 now sid).1 = true →
      AVAILABLE_LABS.contains lab_id = true → decoded = some rule_text →
      validate_yara_rule rule_text = true →
      scanner rule_text lab_id = .error e →
      out = (.error (scannerFault e), st1)) ∧
    (∀ rule_text v, (check_rate_limit st1 now sid).1 = true →
      AVAILABLE_LABS.contains lab_id = true → decoded = some rule_text →
      validate_yara_rule rule_text = true →
      scanner rule_text lab_id = .ok v →
      out.1 = .ok (scanStatusOf v) ∧
      (∃ r', out.2 sid = some r' ∧ r'.last_upload = now) ∧
      (∀ t, t ≠ sid → out.2 t = st1 t)) ∧
    (∀ f, out.1 = .error f →
      out.2 = st1 ∧
      ∀ t r', out.2 t = some r' → r'.last_upload = 0 ∨ store t = some r') := by
  subst hout
  have e1 : (check_rate_limit st1 now sid).1 = false →
      submit_rule store now presented doCleanup fresh lab_id decoded scanner
        = (.error (.RateLimited (check_rate_limit st1 now sid).2), st1) := by
    intro h
    simp [submit_rule, hres, h]
  have e2 : (check_rate_limit st1 now sid).1 = true →
      AVAILABLE_LABS.contains lab_id = false →
      submit_rule store now presented doCleanup fresh lab_id decoded scanner
        = (.error .LabNotFound, st1) := by
    intro h hlab
    have hlab' : ¬ lab_id ∈ AVAILABLE_LABS := by simpa using hlab
    simp [submit_rule, hres, h, hlab']
  have e3 : (check_rate_limit st1 now sid).1 = true →
      AVAILABLE_LABS.contains lab_id = true → decoded = none →
      submit_rule store now presented doCleanup fresh lab_id decoded scanner
        = (.error .InvalidEncoding, st1) := by
    intro h hlab hd
    have hlab' : lab_id ∈ AVAILABLE_LABS := by simpa using hlab
    simp [submit_rule, hres, h, hlab', hd]
  have e4 : ∀ rule_text, (check_rate_limit st1 now sid).1 = true →
      AVAILABLE_LABS.contains lab_id = true → decoded = some rule_text →
      validate_yara_rule rule_text = false →
      submit_rule store now presented doCleanup fresh lab_id decoded scanner
        = (.error .InvalidRuleSyntax, st1) := by
    intro rule_text h hlab hd hval
    have hlab' : lab_id ∈ AVAILABLE_LABS := by simpa using hlab
    simp [submit_rule, hres, h, hlab', hd, hval]
  have e5 : ∀ rule_text e, (check_rate_limit st1 now sid).1 = true →
      AVAILABLE_LABS.contains lab_id = true → decoded = some rule_text →
      validate_yara_rule rule_text = true →
      scanner rule_text lab_id = .error e →
      submit_rule store now presented doCleanup fresh lab_id decoded scanner
        = (.error (scannerFault e), st1) := by
    intro rule_text e h hlab hd hval hscan
    have hlab' : lab_id ∈ AVAILABLE_LABS := by simpa using hlab
    simp [submit_rule, hres, h, hlab', hd, hval, hscan]
  have e6 : ∀ rule_text v, (check_rate_limit st1 now sid).1 = true →
      AVAILABLE_LABS.contains lab_id = true → decoded = some rule_text →
      validate_yara_rule rule_text = true →
      scanner rule_text lab_id = .ok v →
      submit_rule store now presented doCleanup fresh lab_id decoded scanner
        = (.ok (scanStatusOf v),
            match st1 sid with
            | some r => storeInsert st1 sid ⟨r.created_at, now⟩
            | none => storeInsert st1 sid ⟨now, now⟩) := by
    intro rule_text v h hlab hd hval hscan
    have hlab' : lab_id ∈ AVAILABLE_LABS := by simpa using hlab
    simp [submit_rule, hres, h, hlab', hd, hval, hscan]
  refine ⟨e1, e2, e3, e4, e5, ?_, ?_⟩
  · intro rule_text v h hlab hd hval hscan
    rw [e6 rule_text v h hlab hd hval hscan]
    refine ⟨rfl, ?_, ?_⟩
    · cases hsid : st1 sid with
      | some r =>
          refine ⟨⟨r.created_at, now⟩, ?_, rfl⟩
          simp [hsid, storeInsert_apply]
      | none =>
          refine ⟨⟨now, now⟩, ?_, rfl⟩
          simp [hsid, storeInsert_apply]
    · intro t ht
      cases hsid : st1 sid with
      | some r => simp [hsid, storeInsert_apply, if_neg ht]
      | none => simp [hsid, storeInsert_apply, if_neg ht]
  · intro f hf
    have hframe : ∀ t r', st1 t = some r' →
        r'.last_upload = 0 ∨ store t = some r' := by
      intro t r' h
      rcases (get_or_create_session_cases store now presented doCleanup fresh
          sid st1 hres).1 t r' h with hfr | hold
      · left
        rw [hfr]
      · exact Or.inr hold
    cases hrl : (check_rate_limit st1 now sid).1 with
    | false =>
        rw [e1 hrl]
        exact ⟨rfl, hframe⟩
    | true =>
        cases hlab : AVAILABLE_LABS.contains lab_id with
        | false =>
            rw [e2 hrl hlab]
            exact ⟨rfl, hframe⟩
        | true =>
            cases hd : decoded with
            | none =>
                have E := e3 hrl hlab hd
                rw [hd] at E
                rw [E]
                exact ⟨rfl, hframe⟩
            | some rule_text =>
                cases hval : validate_yara_rule rule_text with
                | false =>
                    have E := e4 rule_text hrl hlab hd hval
                    rw [hd] at E
                    rw [E]
                    exact ⟨rfl, hframe⟩
                | true =>
                    cases hscan : scanner rule_text lab_id with
                    | error e =>
                        have E := e5 rule_text e hrl hlab hd hval hscan
                        rw [hd] at E
                        rw [E]
                        exact ⟨rfl, hframe⟩
                    | ok v =>
                        have E := e6 rule_text v hrl hlab hd hval hscan
                        rw [hd] at E
                        rw [hd, E] at hf
                        exact Except.noConfusion hf

/-- A syntactically valid rule submission. -/
def C5rule : String := "rule a \x7b x \x7d"

/-- The verdict the stub scanner returns for the C5 witness. -/
def C5verdict : ScanVerdict := ⟨⟨1, 1⟩, ⟨0, 0⟩, ⟨0, 0⟩, true⟩

/-- A scanner call that always succeeds with `C5verdict`. -/
def C5scanner : String → String → Except ScannerExn ScanVerdict :=
  fun _ _ => .ok C5verdict

/-- C5 witness: a fresh session submitting a valid rule to `lab1`
succeeds, with the session's `last_upload` recorded as `now = 100`. -/
theorem C5_witness :
    (submit_rule (fun _ => none) 100 none false "w5" "lab1" (some C5rule)
        C5scanner).1 = .ok (scanStatusOf C5verdict) ∧
    (∃ r', (submit_rule (fun _ => none) 100 none false "w5" "lab1" (some C5rule)
        C5scanner).2 "w5" = some r' ∧ r'.last_upload = 100) := by
  have h := C5_submit_rule_step_order (fun _ => none) 100 none false "w5" "lab1"
    (some C5rule) C5scanner "w5" (storeInsert (fun _ => none) "w5" ⟨100, 0⟩)
    rfl _ rfl
  obtain ⟨-, -, -, -, -, h6, -⟩ := h
  have hrl : (check_rate_limit (storeInsert (fun _ => none) "w5" ⟨100, 0⟩)
      100 "w5").1 = true := by
    have hl : lastUploadOf (storeInsert (fun _ => none) "w5" ⟨100, 0⟩) "w5" = 0 :=
      rfl
    simp only [check_rate_limit, hl, sub_zero]
    rw [if_pos (by norm_num [RATE_LIMIT_SECONDS])]
  have hval : validate_yara_rule C5rule = true := rfl
  obtain ⟨ho, hr, -⟩ := h6 C5rule C5verdict hrl rfl rfl hval rfl
  exact ⟨ho, hr⟩

/-! ### C9 -/

/-- C9: `check_rate_limit` only reads the store (it is embedded as a pure
function of it), and a rate-limited submission leaves every surviving
store record exactly as it was — in particular the rejected session's
record — so the cooldown keeps being measured from the last accepted
upload: re-probing the rate limit on the post-request store gives the
same answer as on the input store. -/
theorem C9_rate_limited_store_unchanged (store : Store) (now : ℚ)
    (presented : Option String) (doCleanup : Bool) (fresh lab_id : String)
    (decoded : Option String)
    (scanner : String → String → Except ScannerExn ScanVerdict)
    (sid : String) (st1 : Store)
    (hres : get_or_create_session store now presented doCleanup fresh = (sid, st1))
    (h60 : RATE_LIMIT_SECONDS ≤ now) (n : ℤ)
    (hout : (submit_rule store now presented doCleanup fresh lab_id decoded
        scanner).1 = .error (.RateLimited n)) :
    (∀ t r, (submit_rule store now presented doCleanup fresh lab_id decoded
        scanner).2 t = some r → store t = some r) ∧
    check_rate_limit
        (submit_rule store now presented doCleanup fresh lab_id decoded scanner).2
        now sid
      = check_rate_limit store now sid := by
  have hrlf : (check_rate_limit st1 now sid).1 = false := by
    by_cases hrl : (check_rate_limit st1 now sid).1 = true
    · exfalso
      cases hlab : AVAILABLE_LABS.contains lab_id with
      | false =>
          have hlab' : ¬ lab_id ∈ AVAILABLE_LABS := by simpa using hlab
          simp [submit_rule, hres, hrl, hlab'] at hout
      | true =>
          have hlab' : lab_id ∈ AVAILABLE_LABS := by simpa using hlab
          cases hd : decoded with
          | none => simp [submit_rule, hres, hrl, hlab', hd] at hout
          | some rule_text =>
              cases hval : validate_yara_rule rule_text with
              | false => simp [submit_rule, hres, hrl, hlab', hd, hval] at hout
              | true =>
                  cases hscan : scanner rule_text lab_id with
                  | error e =>
                      cases e <;>
                        simp [submit_rule, hres, hrl, hlab', hd, hval, hscan,
                          scannerFault] at hout
                  | ok v =>
                      simp [submit_rule, hres, hrl, hlab', hd, hval, hscan] at hout
    · exact Bool.not_eq_true _ ▸ hrl
  have hsub : submit_rule store now presented doCleanup fresh lab_id decoded scanner
      = (.error (.RateLimited (check_rate_limit st1 now sid).2), st1) := by
    simp [submit_rule, hres, hrlf]
  obtain ⟨hall, hsid⟩ :=
    get_or_create_session_cases store now presented doCleanup fresh sid st1 hres
  rcases hsid with hfresh | ⟨r, hs1, hs0, hpres⟩
  · exfalso
    have hl : lastUploadOf st1 sid = 0 := by
      simp [lastUploadOf, hfresh]
    have htrue : (check_rate_limit st1 now sid).1 = true := by
      simp only [check_rate_limit, hl, sub_zero]
      rw [if_pos h60]
    exact Bool.false_ne_true ((htrue.symm.trans hrlf).symm)
  · constructor
    · intro t r' h
      simp only [hsub] at h
      exact hpres t r' h
    · simp only [hsub]
      have hl : lastUploadOf st1 sid = lastUploadOf store sid := by
        simp [lastUploadOf, hs1, hs0]
      simp [check_rate_limit, hl]

/-- A session created at time 50 whose last upload was at time 90. -/
def C9wStore : Store := fun t => if t = "a" then some ⟨50, 90⟩ else none

/-- C9 witness: a rate-limited resubmission at time 100 (elapsed 10)
leaves the store records unchanged and the rate-limit answer stable. -/
theorem C9_witness :
    (∀ t r, (submit_rule C9wStore 100 (some "a") false "w9" "lab1" none
        (fun _ _ => .error .requestError)).2 t = some r → C9wStore t = some r) ∧
    check_rate_limit
        (submit_rule C9wStore 100 (some "a") false "w9" "lab1" none
          (fun _ _ => .error .requestError)).2 100 "a"
      = check_rate_limit C9wStore 100 "a" := by
  have hres : get_or_create_session C9wStore 100 (some "a") false "w9"
      = ("a", C9wStore) := by
    have hexp : is_session_expired C9wStore 100 "a" = false := by
      have h : C9wStore "a" = some ⟨50, 90⟩ := rfl
      simp only [is_session_expired, h]
      exact decide_eq_false (by norm_num [SESSION_EXPIRY_SECONDS])
    have hsome : (C9wStore "a").isSome = true := rfl
    simp [get_or_create_session, get_or_create_core, hexp, hsome,
      (show ("a" : String) ≠ "" from by decide)]
  have hrlf : (check_rate_limit C9wStore 100 "a").1 = false := by
    have hl : lastUploadOf C9wStore "a" = 90 := rfl
    simp only [check_rate_limit, hl]
    rw [if_neg (by norm_num [RATE_LIMIT_SECONDS])]
  have hout : (submit_rule C9wStore 100 (some "a") false "w9" "lab1" none
      (fun _ _ => .error .requestError)).1
      = .error (.RateLimited (check_rate_limit C9wStore 100 "a").2) := by
    simp [submit_rule, hres, hrlf]
  exact C9_rate_limited_store_unchanged C9wStore 100 (some "a") false "w9" "lab1"
    none (fun _ _ => .error .requestError) "a" C9wStore hres
    (by norm_num [RATE_LIMIT_SECONDS]) _ hout

/-- C7 witness: the amended bounds at a one-file directory with a
duplicate-name report, and at an empty directory. -/
theorem C7_witness :
    (scan_directory [⟨"a", true⟩] (.report ["a", "a"])).matched_files
      ≤ (scan_directory [⟨"a", true⟩] (.report ["a", "a"])).total_files ∧
    scan_directory ([] : List DirEntry) .blank = ⟨0, 0⟩ :=
  ⟨(C7_scan_result_bounds [⟨"a", true⟩] (.report ["a", "a"])).2.1
      ["a", "a"] rfl (by decide),
   (C7_scan_result_bounds [] .blank).1 rfl⟩

end YaraLab
